import Mathlib

/-!
Verification of the primitive-construction and declarative-styling core of
the embedded-graphics repository (file src/embedded-graphics/src/primitives/mod.rs).

The file under src/ contains the four construction expansions (the macros
circle, line, rect, triangle) and the Primitive capability
(trait Primitive: Dimensions).  The shape carriers (Circle, Line, Rect,
Triangle), the Coord point type, the Style value type and the WithStyle
style-application capability live in repository files that are not under
src/; those are modelled here from the specification (sections 3, 4.2, 4.3),
as marked in each doc comment.
-/

namespace EG

variable {C : Type} {σ : Type}

/-- Modelled from the spec: the external Coord 2D point type, an immutable
integer-valued point (x, y) (spec section 3, "Coord"); the missing file is
src/embedded-graphics/src/coord.rs. -/
structure Coord where
  x : Int
  y : Int
  deriving DecidableEq

/-- Modelled from the spec: the Coord constructor used by the expansions
(Coord::new in the source macros). -/
def Coord.new (x y : Int) : Coord := ⟨x, y⟩

/-- Modelled from the spec: the Style value type holding an optional stroke
marker and an optional fill marker, generic over a color value type
(spec section 3, "Style"); the missing file is
src/embedded-graphics/src/style.rs. -/
structure Style (C : Type) where
  stroke : Option C
  fill : Option C
  deriving DecidableEq

/-- Modelled from the spec: the Circle shape carrier, center plus scalar
radius plus an optional style (spec sections 2 and 3); the missing file is
src/embedded-graphics/src/primitives/circle.rs. -/
structure Circle (C : Type) where
  center : Coord
  radius : Nat
  style : Option (Style C)
  deriving DecidableEq

/-- Modelled from the spec: the Line shape carrier, two endpoints plus an
optional style; the missing file is
src/embedded-graphics/src/primitives/line.rs. -/
structure Line (C : Type) where
  p1 : Coord
  p2 : Coord
  style : Option (Style C)
  deriving DecidableEq

/-- Modelled from the spec: the Rect shape carrier, two corner points plus
an optional style; the missing file is
src/embedded-graphics/src/primitives/rect.rs. -/
structure Rect (C : Type) where
  c1 : Coord
  c2 : Coord
  style : Option (Style C)
  deriving DecidableEq

/-- Modelled from the spec: the Triangle shape carrier, three vertices plus
an optional style; the missing file is
src/embedded-graphics/src/primitives/triangle.rs. -/
structure Triangle (C : Type) where
  v1 : Coord
  v2 : Coord
  v3 : Coord
  style : Option (Style C)
  deriving DecidableEq

/-- Modelled from the spec: the Circle geometric constructor, producing an
unstyled instance (spec section 4.2: style = absent on construction). -/
def Circle.new (center : Coord) (radius : Nat) : Circle C :=
  ⟨center, radius, none⟩

/-- Modelled from the spec: the Line geometric constructor. -/
def Line.new (p1 p2 : Coord) : Line C :=
  ⟨p1, p2, none⟩

/-- Modelled from the spec: the Rect geometric constructor. -/
def Rect.new (c1 c2 : Coord) : Rect C :=
  ⟨c1, c2, none⟩

/-- Modelled from the spec: the Triangle geometric constructor. -/
def Triangle.new (v1 v2 v3 : Coord) : Triangle C :=
  ⟨v1, v2, v3, none⟩

/-- Modelled from the spec: effect of the stroke operation on the optional
style component of a shape: set the stroke marker, leave fill untouched,
creating a style with fill absent when none existed (spec section 4.3). -/
def applyStroke (v : Option C) : Option (Style C) → Option (Style C)
  | none => some { stroke := v, fill := none }
  | some s => some { s with stroke := v }

/-- Modelled from the spec: effect of the fill operation on the optional
style component, symmetric to applyStroke (spec section 4.3). -/
def applyFill (v : Option C) : Option (Style C) → Option (Style C)
  | none => some { stroke := none, fill := v }
  | some s => some { s with fill := v }

/-- Modelled from the spec: Circle stroke method of the WithStyle
capability (same geometry, new style component). -/
def Circle.stroke (c : Circle C) (v : Option C) : Circle C :=
  { c with style := applyStroke v c.style }

/-- Modelled from the spec: Circle fill method. -/
def Circle.fill (c : Circle C) (v : Option C) : Circle C :=
  { c with style := applyFill v c.style }

/-- Modelled from the spec: Circle style method — replaces the entire style
wholesale (spec section 4.3).  Named setStyle here because style is the
field name. -/
def Circle.setStyle (c : Circle C) (s : Style C) : Circle C :=
  { c with style := some s }

/-- Modelled from the spec: Line stroke method. -/
def Line.stroke (l : Line C) (v : Option C) : Line C :=
  { l with style := applyStroke v l.style }

/-- Modelled from the spec: Line fill method. -/
def Line.fill (l : Line C) (v : Option C) : Line C :=
  { l with style := applyFill v l.style }

/-- Modelled from the spec: Line style method. -/
def Line.setStyle (l : Line C) (s : Style C) : Line C :=
  { l with style := some s }

/-- Modelled from the spec: Rect stroke method. -/
def Rect.stroke (r : Rect C) (v : Option C) : Rect C :=
  { r with style := applyStroke v r.style }

/-- Modelled from the spec: Rect fill method. -/
def Rect.fill (r : Rect C) (v : Option C) : Rect C :=
  { r with style := applyFill v r.style }

/-- Modelled from the spec: Rect style method. -/
def Rect.setStyle (r : Rect C) (s : Style C) : Rect C :=
  { r with style := some s }

/-- Modelled from the spec: Triangle stroke method. -/
def Triangle.stroke (t : Triangle C) (v : Option C) : Triangle C :=
  { t with style := applyStroke v t.style }

/-- Modelled from the spec: Triangle fill method. -/
def Triangle.fill (t : Triangle C) (v : Option C) : Triangle C :=
  { t with style := applyFill v t.style }

/-- Modelled from the spec: Triangle style method. -/
def Triangle.setStyle (t : Triangle C) (s : Style C) : Triangle C :=
  { t with style := some s }

/-- Modelled from the spec: the WithStyle style-application capability
(spec section 4.3): three chainable operations, each consuming a shape and
an argument and producing an updated shape; the missing file is
src/embedded-graphics/src/style.rs. -/
structure WithStyle (C : Type) (σ : Type) where
  stroke : σ → Option C → σ
  fill : σ → Option C → σ
  style : σ → Style C → σ

/-- Circle instance of the WithStyle capability. -/
def Circle.withStyle : WithStyle C (Circle C) :=
  ⟨Circle.stroke, Circle.fill, Circle.setStyle⟩

/-- Line instance of the WithStyle capability. -/
def Line.withStyle : WithStyle C (Line C) :=
  ⟨Line.stroke, Line.fill, Line.setStyle⟩

/-- Rect instance of the WithStyle capability. -/
def Rect.withStyle : WithStyle C (Rect C) :=
  ⟨Rect.stroke, Rect.fill, Rect.setStyle⟩

/-- Triangle instance of the WithStyle capability. -/
def Triangle.withStyle : WithStyle C (Triangle C) :=
  ⟨Triangle.stroke, Triangle.fill, Triangle.setStyle⟩

/-- A written style value expression in the declarative form: either an
expression of the Option color type (the argument type of stroke and fill)
or an expression of the Style type (the argument type of style). -/
inductive StyleVal (C : Type) where
  | opt (v : Option C)
  | sty (s : Style C)
  deriving DecidableEq

/-- One of the three named style-application operations, as invoked by the
explicit builder chain. -/
inductive StyleOp (C : Type) where
  | stroke (v : Option C)
  | fill (v : Option C)
  | style (s : Style C)
  deriving DecidableEq

/-- Resolution of one written identifier = expression pair against the
three style-application operations; a key that does not name one of
stroke, fill, style (or whose expression has the wrong type) resolves to
none, modelling the compile-time rejection. -/
def resolvePair : String × StyleVal C → Option (StyleOp C)
  | ("stroke", StyleVal.opt v) => some (StyleOp.stroke v)
  | ("fill", StyleVal.opt v) => some (StyleOp.fill v)
  | ("style", StyleVal.sty s) => some (StyleOp.style s)
  | _ => none

/-- Resolution of a whole written pair list, left to right; fails when any
single pair fails. -/
def resolvePairs : List (String × StyleVal C) → Option (List (StyleOp C))
  | [] => some []
  | p :: ps => (resolvePair p).bind fun op =>
      (resolvePairs ps).map fun ops => op :: ops

/-- Invoking one named style-application operation on a shape through the
WithStyle capability (one step of the explicit builder chain). -/
def WithStyle.applyOp (ws : WithStyle C σ) (s : σ) : StyleOp C → σ
  | StyleOp.stroke v => ws.stroke s v
  | StyleOp.fill v => ws.fill s v
  | StyleOp.style st => ws.style s st

/-- The explicit builder chain: fold the named operations left to right
over the shape (spec section 4.3). -/
def WithStyle.applyOps (ws : WithStyle C σ) (s : σ) (ops : List (StyleOp C)) : σ :=
  ops.foldl ws.applyOp s

/-- One written pair of the declarative form, expanded to the method call
.key(value) on the running shape: the identifier is looked up among the
methods the shape exposes.  An identifier naming none of the WithStyle
methods produces no program at all (none): per the spec the shapes expose
exactly the three style-application operations, so that method call does
not compile. -/
def WithStyle.declStep (ws : WithStyle C σ) (s : σ) : String × StyleVal C → Option σ
  | ("stroke", StyleVal.opt v) => some (ws.stroke s v)
  | ("fill", StyleVal.opt v) => some (ws.fill s v)
  | ("style", StyleVal.sty st) => some (ws.style s st)
  | _ => none

/-- The macro expansion core, shared by the four expansions in
src/embedded-graphics/src/primitives/mod.rs: for each written pair in the
exact order written, invoke the method named by its identifier on the
running shape; any pair that fails to resolve means the whole expression
does not compile. -/
def WithStyle.declFold (ws : WithStyle C σ) (s : σ) :
    List (String × StyleVal C) → Option σ
  | [] => some s
  | p :: ps =>
    match ws.declStep s p with
    | some s2 => ws.declFold s2 ps
    | none => none

/-- The circle expansion (macro circle in primitives/mod.rs):
Circle::new(Coord::new(cx, cy), r) followed by one method call per written
pair; the optional trailing comma is accepted and discarded. -/
def circleDecl (cx cy : Int) (r : Nat)
    (pairs : List (String × StyleVal C)) (_trailing : Bool) : Option (Circle C) :=
  Circle.withStyle.declFold (Circle.new (Coord.new cx cy) r) pairs

/-- The line expansion (macro line in primitives/mod.rs). -/
def lineDecl (x1 y1 x2 y2 : Int)
    (pairs : List (String × StyleVal C)) (_trailing : Bool) : Option (Line C) :=
  Line.withStyle.declFold (Line.new (Coord.new x1 y1) (Coord.new x2 y2)) pairs

/-- The rect expansion (macro rect in primitives/mod.rs). -/
def rectDecl (x1 y1 x2 y2 : Int)
    (pairs : List (String × StyleVal C)) (_trailing : Bool) : Option (Rect C) :=
  Rect.withStyle.declFold (Rect.new (Coord.new x1 y1) (Coord.new x2 y2)) pairs

/-- The triangle expansion (macro triangle in primitives/mod.rs). -/
def triangleDecl (x1 y1 x2 y2 x3 y3 : Int)
    (pairs : List (String × StyleVal C)) (_trailing : Bool) : Option (Triangle C) :=
  Triangle.withStyle.declFold
    (Triangle.new (Coord.new x1 y1) (Coord.new x2 y2) (Coord.new x3 y3)) pairs

/-- Modelled from the spec: an axis-aligned bounding box, the result type
of the Dimensions query (spec section 4.1). -/
structure BoundingBox where
  topLeft : Coord
  bottomRight : Coord
  deriving DecidableEq

/-- Modelled from the spec: the external Dimensions capability — given the
shape, produce its minimal enclosing axis-aligned box (spec section 4.1);
the missing file is src/embedded-graphics/src/drawable.rs. -/
class Dimensions (α : Type) where
  boundingBox : α → BoundingBox

/-- The Primitive capability from primitives/mod.rs:
trait Primitive: Dimensions, with no operations of its own. -/
class Primitive (α : Type) extends Dimensions α : Type

/-- Modelled from the spec: Circle bounding box, center offset by radius in
both directions; the impl lives in the missing circle.rs. -/
instance : Dimensions (Circle C) where
  boundingBox c :=
    ⟨Coord.new (c.center.x - c.radius) (c.center.y - c.radius),
     Coord.new (c.center.x + c.radius) (c.center.y + c.radius)⟩

/-- Modelled from the spec: Line bounding box, componentwise min and max of
the endpoints. -/
instance : Dimensions (Line C) where
  boundingBox l :=
    ⟨Coord.new (min l.p1.x l.p2.x) (min l.p1.y l.p2.y),
     Coord.new (max l.p1.x l.p2.x) (max l.p1.y l.p2.y)⟩

/-- Modelled from the spec: Rect bounding box, componentwise min and max of
the corners. -/
instance : Dimensions (Rect C) where
  boundingBox r :=
    ⟨Coord.new (min r.c1.x r.c2.x) (min r.c1.y r.c2.y),
     Coord.new (max r.c1.x r.c2.x) (max r.c1.y r.c2.y)⟩

/-- Modelled from the spec: Triangle bounding box, componentwise min and
max of the three vertices. -/
instance : Dimensions (Triangle C) where
  boundingBox t :=
    ⟨Coord.new (min t.v1.x (min t.v2.x t.v3.x)) (min t.v1.y (min t.v2.y t.v3.y)),
     Coord.new (max t.v1.x (max t.v2.x t.v3.x)) (max t.v1.y (max t.v2.y t.v3.y))⟩

/-- Modelled from the spec: all four shapes satisfy Primitive. -/
instance : Primitive (Circle C) := {}

/-- Modelled from the spec: Line satisfies Primitive. -/
instance : Primitive (Line C) := {}

/-- Modelled from the spec: Rect satisfies Primitive. -/
instance : Primitive (Rect C) := {}

/-- Modelled from the spec: Triangle satisfies Primitive. -/
instance : Primitive (Triangle C) := {}

/-- Effect of one named style-application operation on the optional style
component shared by all four shape carriers (spec section 4.3). -/
def applyOpStyle (g : Option (Style C)) : StyleOp C → Option (Style C)
  | StyleOp.stroke v => applyStroke v g
  | StyleOp.fill v => applyFill v g
  | StyleOp.style s => some s

theorem declStep_eq_resolvePair (ws : WithStyle C σ) (s : σ) (p : String × StyleVal C) :
    ws.declStep s p = (resolvePair p).map (ws.applyOp s) := by
  obtain ⟨k, v⟩ := p
  cases v with
  | opt v =>
    by_cases h1 : k = "stroke"
    · subst h1; rfl
    · by_cases h2 : k = "fill"
      · subst h2; rfl
      · simp [WithStyle.declStep, resolvePair, h1, h2]
  | sty st =>
    by_cases h3 : k = "style"
    · subst h3; rfl
    · simp [WithStyle.declStep, resolvePair, h3]

theorem declFold_eq_resolvePairs (ws : WithStyle C σ) (s : σ)
    (ps : List (String × StyleVal C)) :
    ws.declFold s ps = (resolvePairs ps).map (ws.applyOps s) := by
  induction ps generalizing s with
  | nil => rfl
  | cons p ps ih =>
    rw [WithStyle.declFold, declStep_eq_resolvePair]
    cases hp : resolvePair p with
    | none => simp [resolvePairs, hp]
    | some op =>
      cases hps : resolvePairs ps with
      | none => simp [resolvePairs, hp, hps, ih]
      | some ops =>
        simp [resolvePairs, hp, hps, ih, WithStyle.applyOps, List.foldl]

theorem circle_applyOp_fields (c : Circle C) (op : StyleOp C) :
    Circle.withStyle.applyOp c op
      = ⟨c.center, c.radius, applyOpStyle c.style op⟩ := by
  cases op <;> rfl

theorem circle_applyOps_fields (c : Circle C) (ops : List (StyleOp C)) :
    Circle.withStyle.applyOps c ops
      = ⟨c.center, c.radius, ops.foldl applyOpStyle c.style⟩ := by
  induction ops generalizing c with
  | nil => rfl
  | cons op ops ih =>
    rw [WithStyle.applyOps, List.foldl_cons, ← WithStyle.applyOps, ih,
      circle_applyOp_fields, List.foldl_cons]

theorem line_applyOp_fields (l : Line C) (op : StyleOp C) :
    Line.withStyle.applyOp l op = ⟨l.p1, l.p2, applyOpStyle l.style op⟩ := by
  cases op <;> rfl

theorem line_applyOps_fields (l : Line C) (ops : List (StyleOp C)) :
    Line.withStyle.applyOps l ops
      = ⟨l.p1, l.p2, ops.foldl applyOpStyle l.style⟩ := by
  induction ops generalizing l with
  | nil => rfl
  | cons op ops ih =>
    rw [WithStyle.applyOps, List.foldl_cons, ← WithStyle.applyOps, ih,
      line_applyOp_fields, List.foldl_cons]

theorem rect_applyOp_fields (r : Rect C) (op : StyleOp C) :
    Rect.withStyle.applyOp r op = ⟨r.c1, r.c2, applyOpStyle r.style op⟩ := by
  cases op <;> rfl

theorem rect_applyOps_fields (r : Rect C) (ops : List (StyleOp C)) :
    Rect.withStyle.applyOps r ops
      = ⟨r.c1, r.c2, ops.foldl applyOpStyle r.style⟩ := by
  induction ops generalizing r with
  | nil => rfl
  | cons op ops ih =>
    rw [WithStyle.applyOps, List.foldl_cons, ← WithStyle.applyOps, ih,
      rect_applyOp_fields, List.foldl_cons]

theorem triangle_applyOp_fields (t : Triangle C) (op : StyleOp C) :
    Triangle.withStyle.applyOp t op
      = ⟨t.v1, t.v2, t.v3, applyOpStyle t.style op⟩ := by
  cases op <;> rfl

theorem triangle_applyOps_fields (t : Triangle C) (ops : List (StyleOp C)) :
    Triangle.withStyle.applyOps t ops
      = ⟨t.v1, t.v2, t.v3, ops.foldl applyOpStyle t.style⟩ := by
  induction ops generalizing t with
  | nil => rfl
  | cons op ops ih =>
    rw [WithStyle.applyOps, List.foldl_cons, ← WithStyle.applyOps, ih,
      triangle_applyOp_fields, List.foldl_cons]

theorem foldl_applyOpStyle_last_style (g : Option (Style C))
    (ops : List (StyleOp C)) (s : Style C) :
    (ops ++ [StyleOp.style s]).foldl applyOpStyle g = some s := by
  rw [List.foldl_append]
  rfl

theorem stroke_fill_style_commute (g : Option (Style C)) (v1 v2 : Option C) :
    applyFill v2 (applyStroke v1 g) = some ⟨v1, v2⟩
      ∧ applyStroke v1 (applyFill v2 g) = some ⟨v1, v2⟩ := by
  cases g <;> exact ⟨rfl, rfl⟩

theorem resolvePair_none_of_unknown (k : String) (v : StyleVal C)
    (h1 : k ≠ "stroke") (h2 : k ≠ "fill") (h3 : k ≠ "style") :
    resolvePair (k, v) = none := by
  cases v <;> simp [resolvePair, h1, h2, h3]

theorem resolvePairs_none_of_mem (pre post : List (String × StyleVal C))
    (p : String × StyleVal C) (hp : resolvePair p = none) :
    resolvePairs (pre ++ p :: post) = none := by
  induction pre with
  | nil => simp [resolvePairs, hp]
  | cons q pre ih => cases hq : resolvePair q <;> simp [resolvePairs, hq, ih]

/-- Claim C1: for every shape kind, every positional geometry argument
list and every written sequence of style pairs, the declarative form
produces exactly the value obtained by invoking the geometric constructor
and then each correspondingly named style-application operation, left to
right in the written order. -/
theorem decl_form_equals_explicit_chain (cx cy x1 y1 x2 y2 x3 y3 : Int) (r : Nat)
    (pairs : List (String × StyleVal C)) (t : Bool) :
    circleDecl cx cy r pairs t
        = (resolvePairs pairs).map
            (Circle.withStyle.applyOps (Circle.new (Coord.new cx cy) r))
      ∧ lineDecl x1 y1 x2 y2 pairs t
        = (resolvePairs pairs).map
            (Line.withStyle.applyOps (Line.new (Coord.new x1 y1) (Coord.new x2 y2)))
      ∧ rectDecl x1 y1 x2 y2 pairs t
        = (resolvePairs pairs).map
            (Rect.withStyle.applyOps (Rect.new (Coord.new x1 y1) (Coord.new x2 y2)))
      ∧ triangleDecl x1 y1 x2 y2 x3 y3 pairs t
        = (resolvePairs pairs).map
            (Triangle.withStyle.applyOps
              (Triangle.new (Coord.new x1 y1) (Coord.new x2 y2) (Coord.new x3 y3))) :=
  ⟨declFold_eq_resolvePairs _ _ _, declFold_eq_resolvePairs _ _ _,
    declFold_eq_resolvePairs _ _ _, declFold_eq_resolvePairs _ _ _⟩

/-- Claim C2: a later style = s operation in the written order discards
every earlier stroke and fill setting: after any prefix of operations, a
final style = s leaves the shape with style exactly s. -/
theorem later_style_discards_stroke_fill (cx cy x1 y1 x2 y2 x3 y3 : Int) (r : Nat)
    (pre : List (StyleOp C)) (s : Style C) :
    (Circle.withStyle.applyOps (Circle.new (Coord.new cx cy) r)
        (pre ++ [StyleOp.style s])).style = some s
      ∧ (Line.withStyle.applyOps (Line.new (Coord.new x1 y1) (Coord.new x2 y2))
        (pre ++ [StyleOp.style s])).style = some s
      ∧ (Rect.withStyle.applyOps (Rect.new (Coord.new x1 y1) (Coord.new x2 y2))
        (pre ++ [StyleOp.style s])).style = some s
      ∧ (Triangle.withStyle.applyOps
          (Triangle.new (Coord.new x1 y1) (Coord.new x2 y2) (Coord.new x3 y3))
        (pre ++ [StyleOp.style s])).style = some s := by
  rw [circle_applyOps_fields, line_applyOps_fields, rect_applyOps_fields,
    triangle_applyOps_fields]
  exact ⟨foldl_applyOpStyle_last_style _ _ _, foldl_applyOpStyle_last_style _ _ _,
    foldl_applyOpStyle_last_style _ _ _, foldl_applyOpStyle_last_style _ _ _⟩

/-- Claim C3: stroke and fill touch disjoint fields, so applying
stroke v1 and fill v2 in either order yields the same shape, whose style
has stroke v1 and fill v2; this holds for all four shape kinds and any
starting shape value. -/
theorem stroke_fill_commute (c : Circle C) (l : Line C) (r : Rect C)
    (t : Triangle C) (v1 v2 : Option C) :
    ((c.stroke v1).fill v2 = (c.fill v2).stroke v1
        ∧ ((c.stroke v1).fill v2).style = some ⟨v1, v2⟩)
      ∧ ((l.stroke v1).fill v2 = (l.fill v2).stroke v1
        ∧ ((l.stroke v1).fill v2).style = some ⟨v1, v2⟩)
      ∧ ((r.stroke v1).fill v2 = (r.fill v2).stroke v1
        ∧ ((r.stroke v1).fill v2).style = some ⟨v1, v2⟩)
      ∧ ((t.stroke v1).fill v2 = (t.fill v2).stroke v1
        ∧ ((t.stroke v1).fill v2).style = some ⟨v1, v2⟩) := by
  obtain ⟨ce, ra, cst⟩ := c
  obtain ⟨q1, q2, lst⟩ := l
  obtain ⟨a1, a2, rst⟩ := r
  obtain ⟨w1, w2, w3, tst⟩ := t
  cases cst <;> cases lst <;> cases rst <;> cases tst <;>
    exact ⟨⟨rfl, rfl⟩, ⟨rfl, rfl⟩, ⟨rfl, rfl⟩, ⟨rfl, rfl⟩⟩

/-- Claim C4: the declarative form with zero style pairs equals the plain
geometric constructor call, and that shape is unstyled (style absent). -/
theorem zero_style_pairs_unstyled (cx cy x1 y1 x2 y2 x3 y3 : Int) (r : Nat)
    (t : Bool) :
    circleDecl (C := C) cx cy r [] t = some (Circle.new (Coord.new cx cy) r)
      ∧ (Circle.new (C := C) (Coord.new cx cy) r).style = none
      ∧ lineDecl (C := C) x1 y1 x2 y2 [] t
        = some (Line.new (Coord.new x1 y1) (Coord.new x2 y2))
      ∧ (Line.new (C := C) (Coord.new x1 y1) (Coord.new x2 y2)).style = none
      ∧ rectDecl (C := C) x1 y1 x2 y2 [] t
        = some (Rect.new (Coord.new x1 y1) (Coord.new x2 y2))
      ∧ (Rect.new (C := C) (Coord.new x1 y1) (Coord.new x2 y2)).style = none
      ∧ triangleDecl (C := C) x1 y1 x2 y2 x3 y3 [] t
        = some (Triangle.new (Coord.new x1 y1) (Coord.new x2 y2) (Coord.new x3 y3))
      ∧ (Triangle.new (C := C) (Coord.new x1 y1) (Coord.new x2 y2)
          (Coord.new x3 y3)).style = none :=
  ⟨rfl, rfl, rfl, rfl, rfl, rfl, rfl, rfl⟩

/-- Claim C5: an identifier that names none of the three style-application
operations makes the declarative form produce no program at all, for every
shape kind and wherever in the pair list it occurs: the bad key is rejected
at construction time, never ignored and never deferred. -/
theorem unknown_style_key_rejected (cx cy x1 y1 x2 y2 x3 y3 : Int) (r : Nat)
    (k : String) (v : StyleVal C) (pre post : List (String × StyleVal C)) (t : Bool)
    (h1 : k ≠ "stroke") (h2 : k ≠ "fill") (h3 : k ≠ "style") :
    circleDecl cx cy r (pre ++ (k, v) :: post) t = none
      ∧ lineDecl x1 y1 x2 y2 (pre ++ (k, v) :: post) t = none
      ∧ rectDecl x1 y1 x2 y2 (pre ++ (k, v) :: post) t = none
      ∧ triangleDecl x1 y1 x2 y2 x3 y3 (pre ++ (k, v) :: post) t = none := by
  have hp : resolvePair (k, v) = none := resolvePair_none_of_unknown k v h1 h2 h3
  have hps := resolvePairs_none_of_mem pre post (k, v) hp
  exact ⟨by simp [circleDecl, declFold_eq_resolvePairs, hps],
    by simp [lineDecl, declFold_eq_resolvePairs, hps],
    by simp [rectDecl, declFold_eq_resolvePairs, hps],
    by simp [triangleDecl, declFold_eq_resolvePairs, hps]⟩

theorem unknown_style_key_rejected_witness :
    circleDecl 10 20 30 ([] ++ ("translate", StyleVal.opt (some (5 : Nat))) :: []) false = none
      ∧ lineDecl 10 20 30 40 ([] ++ ("translate", StyleVal.opt (some (5 : Nat))) :: []) false = none
      ∧ rectDecl 10 20 30 40 ([] ++ ("translate", StyleVal.opt (some (5 : Nat))) :: []) false = none
      ∧ triangleDecl 10 20 30 40 50 60
          ([] ++ ("translate", StyleVal.opt (some (5 : Nat))) :: []) false = none :=
  unknown_style_key_rejected 10 20 10 20 30 40 50 60 30 "translate"
    (StyleVal.opt (some 5)) [] [] false (by decide) (by decide) (by decide)

/-- Claim C6: applying stroke v to a freshly constructed shape creates a
style whose stroke is v and whose fill is absent; in particular the line
from (10,20) to (30,40) built declaratively with stroke = Some 5 has style
stroke = Some 5 and fill = None. -/
theorem stroke_on_fresh_shape (ce q1 q2 a1 a2 w1 w2 w3 : Coord) (r : Nat)
    (v : Option C) :
    ((Circle.new ce r).stroke v).style = some ⟨v, none⟩
      ∧ ((Line.new q1 q2).stroke v).style = some ⟨v, none⟩
      ∧ ((Rect.new a1 a2).stroke v).style = some ⟨v, none⟩
      ∧ ((Triangle.new w1 w2 w3).stroke v).style = some ⟨v, none⟩
      ∧ lineDecl 10 20 30 40 [("stroke", StyleVal.opt (some (5 : Nat)))] false
        = some ⟨Coord.new 10 20, Coord.new 30 40, some ⟨some 5, none⟩⟩ :=
  ⟨rfl, rfl, rfl, rfl, rfl⟩

/-- Claim C7: every sequence of style-application operations leaves every
geometry field of every shape unchanged: only the style component is
replaced. -/
theorem style_ops_preserve_geometry (c : Circle C) (l : Line C) (r : Rect C)
    (t : Triangle C) (ops : List (StyleOp C)) :
    (Circle.withStyle.applyOps c ops).center = c.center
      ∧ (Circle.withStyle.applyOps c ops).radius = c.radius
      ∧ (Line.withStyle.applyOps l ops).p1 = l.p1
      ∧ (Line.withStyle.applyOps l ops).p2 = l.p2
      ∧ (Rect.withStyle.applyOps r ops).c1 = r.c1
      ∧ (Rect.withStyle.applyOps r ops).c2 = r.c2
      ∧ (Triangle.withStyle.applyOps t ops).v1 = t.v1
      ∧ (Triangle.withStyle.applyOps t ops).v2 = t.v2
      ∧ (Triangle.withStyle.applyOps t ops).v3 = t.v3 := by
  simp [circle_applyOps_fields, line_applyOps_fields, rect_applyOps_fields,
    triangle_applyOps_fields]

/-- Claim C8: construction is total: for every coordinate values (negative
and degenerate included) the geometric constructors return a shape carrying
exactly the given geometry, and the declarative form succeeds whenever its
style pairs resolve. -/
theorem construction_total (cx cy x1 y1 x2 y2 x3 y3 : Int) (r : Nat)
    (pairs : List (String × StyleVal C)) (t : Bool)
    (h : (resolvePairs pairs).isSome = true) :
    (circleDecl cx cy r pairs t).isSome = true
      ∧ (Circle.new (C := C) (Coord.new cx cy) r).center = Coord.new cx cy
      ∧ (Circle.new (C := C) (Coord.new cx cy) r).radius = r
      ∧ (lineDecl (C := C) x1 y1 x2 y2 pairs t).isSome = true
      ∧ (Line.new (C := C) (Coord.new x1 y1) (Coord.new x2 y2)).p1 = Coord.new x1 y1
      ∧ (Line.new (C := C) (Coord.new x1 y1) (Coord.new x2 y2)).p2 = Coord.new x2 y2
      ∧ (rectDecl (C := C) x1 y1 x2 y2 pairs t).isSome = true
      ∧ (Rect.new (C := C) (Coord.new x1 y1) (Coord.new x2 y2)).c1 = Coord.new x1 y1
      ∧ (Rect.new (C := C) (Coord.new x1 y1) (Coord.new x2 y2)).c2 = Coord.new x2 y2
      ∧ (triangleDecl (C := C) x1 y1 x2 y2 x3 y3 pairs t).isSome = true
      ∧ (Triangle.new (C := C) (Coord.new x1 y1) (Coord.new x2 y2)
          (Coord.new x3 y3)).v1 = Coord.new x1 y1
      ∧ (Triangle.new (C := C) (Coord.new x1 y1) (Coord.new x2 y2)
          (Coord.new x3 y3)).v2 = Coord.new x2 y2
      ∧ (Triangle.new (C := C) (Coord.new x1 y1) (Coord.new x2 y2)
          (Coord.new x3 y3)).v3 = Coord.new x3 y3 := by
  refine ⟨?_, rfl, rfl, ?_, rfl, rfl, ?_, rfl, rfl, ?_, rfl, rfl, rfl⟩ <;>
    simp [circleDecl, lineDecl, rectDecl, triangleDecl,
      declFold_eq_resolvePairs, Option.isSome_map, h]

theorem construction_total_witness :
    (circleDecl (-5) (-7) 0 [(("stroke" : String), StyleVal.opt (some (3 : Nat)))] false).isSome = true
      ∧ (Circle.new (C := Nat) (Coord.new (-5) (-7)) 0).center = Coord.new (-5) (-7)
      ∧ (Circle.new (C := Nat) (Coord.new (-5) (-7)) 0).radius = 0
      ∧ (lineDecl (C := Nat) 0 0 0 0 [(("stroke" : String), StyleVal.opt (some (3 : Nat)))] false).isSome = true
      ∧ (Line.new (C := Nat) (Coord.new 0 0) (Coord.new 0 0)).p1 = Coord.new 0 0
      ∧ (Line.new (C := Nat) (Coord.new 0 0) (Coord.new 0 0)).p2 = Coord.new 0 0
      ∧ (rectDecl (C := Nat) 0 0 0 0 [(("stroke" : String), StyleVal.opt (some (3 : Nat)))] false).isSome = true
      ∧ (Rect.new (C := Nat) (Coord.new 0 0) (Coord.new 0 0)).c1 = Coord.new 0 0
      ∧ (Rect.new (C := Nat) (Coord.new 0 0) (Coord.new 0 0)).c2 = Coord.new 0 0
      ∧ (triangleDecl (C := Nat) 0 0 0 0 0 0 [(("stroke" : String), StyleVal.opt (some (3 : Nat)))] false).isSome = true
      ∧ (Triangle.new (C := Nat) (Coord.new 0 0) (Coord.new 0 0)
          (Coord.new 0 0)).v1 = Coord.new 0 0
      ∧ (Triangle.new (C := Nat) (Coord.new 0 0) (Coord.new 0 0)
          (Coord.new 0 0)).v2 = Coord.new 0 0
      ∧ (Triangle.new (C := Nat) (Coord.new 0 0) (Coord.new 0 0)
          (Coord.new 0 0)).v3 = Coord.new 0 0 :=
  construction_total (-5) (-7) 0 0 0 0 0 0 0
    [("stroke", StyleVal.opt (some 3))] false (by decide)

/-- Claim C9: Primitive requires nothing beyond Dimensions — a Primitive
instance yields a Dimensions instance and conversely a Dimensions instance
suffices to build a Primitive one — and all four concrete shapes satisfy
Primitive. -/
theorem primitive_requires_only_dimensions :
    (∀ α : Type, Primitive α → Nonempty (Dimensions α))
      ∧ (∀ α : Type, Dimensions α → Nonempty (Primitive α))
      ∧ Nonempty (Primitive (Circle Nat)) ∧ Nonempty (Primitive (Line Nat))
      ∧ Nonempty (Primitive (Rect Nat)) ∧ Nonempty (Primitive (Triangle Nat)) :=
  ⟨fun _ h => ⟨h.toDimensions⟩, fun α h => ⟨@Primitive.mk α h⟩,
    ⟨inferInstance⟩, ⟨inferInstance⟩, ⟨inferInstance⟩, ⟨inferInstance⟩⟩

/-- Claim C10: the optional trailing comma accepted by each expansion has
no effect: the value produced with it equals the value produced without
it, for every shape kind and every argument list. -/
theorem trailing_comma_no_effect (cx cy x1 y1 x2 y2 x3 y3 : Int) (r : Nat)
    (pairs : List (String × StyleVal C)) (t1 t2 : Bool) :
    circleDecl cx cy r pairs t1 = circleDecl cx cy r pairs t2
      ∧ lineDecl x1 y1 x2 y2 pairs t1 = lineDecl x1 y1 x2 y2 pairs t2
      ∧ rectDecl x1 y1 x2 y2 pairs t1 = rectDecl x1 y1 x2 y2 pairs t2
      ∧ triangleDecl x1 y1 x2 y2 x3 y3 pairs t1
        = triangleDecl x1 y1 x2 y2 x3 y3 pairs t2 :=
  ⟨rfl, rfl, rfl, rfl⟩

end EG
